import Mathlib

/-!
Verification of the GRS-Assignments plotting scripts.

The repository holds two plotting scripts:
* `src/GRS_PA01/MT25077_Part_D_plot.py` — loads a CSV of measurements
  (Program, Function, Workers, CPU%, Memory(KB), IO(KB/s), Time(s)) and
  renders six charts into a multi-page PDF.
* `src/GRS_PA02/MT25077_Part_D_Plots.py` — renders four charts from
  hardcoded measurement tables.

This file gives a shallow embedding of the data handling of both scripts:
tables are lists of rows, pandas filtering is `List.filter`,
`sort_values` is a stable sort, float arithmetic is modelled over `ℚ`
(a float division by zero yields an IEEE infinity rather than an
exception; the model only relies on the fact that a value, not an error,
is produced).
-/

namespace PA01

/-- One row of `MT25077_Part_D_CSV.csv` after `pd.read_csv`: the seven
required columns of `load_data`. -/
structure Row where
  program : String
  function : String
  workers : ℚ
  cpuPercent : ℚ
  memoryKB : ℚ
  ioKBps : ℚ
  timeSeconds : ℚ
deriving DecidableEq

/-- `CSV_FILE` constant of the script. -/
def CSV_FILE : String := "MT25077_Part_D_CSV.csv"

/-- `OUTPUT_PDF` constant of the script. -/
def OUTPUT_PDF : String := "MT25077_Part_D_Plots.pdf"

/-- The `COLORS` dict: per-Function line colour. -/
def COLORS : List (String × String) :=
  [("cpu", "#FF6B6B"), ("mem", "#4ECDC4"), ("io", "#45B7D1")]

/-- The `MARKERS` dict: per-Program marker. -/
def MARKERS : List (String × String) :=
  [("a", "o"), ("b", "s")]

/-- The `LINE_STYLES` dict: per-Program line style. -/
def LINE_STYLES : List (String × String) :=
  [("a", "-"), ("b", "--")]

/-- Error raised by a Python dict subscript on a missing key
(`KeyError`); the spec calls it `StyleLookupError`. -/
inductive StyleLookupError where
  | keyError (key : String)
deriving DecidableEq

/-- Python dict subscription `d[k]`: the value when the key is present,
a `KeyError` otherwise (no silent default). -/
def dictGet (d : List (String × String)) (k : String) :
    Except StyleLookupError String :=
  match d.find? (fun e => e.1 == k) with
  | some e => Except.ok e.2
  | none => Except.error (StyleLookupError.keyError k)

/-- The hardcoded program list iterated by every plot loop. -/
def PROGRAMS : List String := ["a", "b"]

/-- The hardcoded function list iterated by every plot loop. -/
def FUNCTIONS : List String := ["cpu", "mem", "io"]

/-- `df[(df['Program'] == program) & (df['Function'] == function)]`:
boolean-mask filtering keeps the surviving rows in their original
order. -/
def filterPF (df : List Row) (p f : String) : List Row :=
  df.filter (fun r => r.program == p && r.function == f)

/-- Column access `data[metric]` for the numeric columns. -/
def column (name : String) (r : Row) : ℚ :=
  if name = "Workers" then r.workers
  else if name = "CPU%" then r.cpuPercent
  else if name = "Memory(KB)" then r.memoryKB
  else if name = "IO(KB/s)" then r.ioKBps
  else if name = "Time(s)" then r.timeSeconds
  else 0

/-- One line chart of plots 1/3/4: for each (program, function) pair the
points `(Workers, metric)` taken from the filtered rows, in row order
(no sorting happens in these loops). -/
def lineSeries (df : List Row) (metric : String) :
    List (String × String × List (ℚ × ℚ)) :=
  PROGRAMS.flatMap (fun p => FUNCTIONS.map (fun f =>
    (p, f, (filterPF df p f).map (fun r => (r.workers, column metric r)))))

/-- Plot 2 plots `data['Memory(KB)'] / 1024` on the y axis. -/
def plot2Y (r : Row) : ℚ := r.memoryKB / 1024

/-- Memory chart (plot 2): same loops as `lineSeries`, y divided by
1024 to convert KB to MB. -/
def memSeries (df : List Row) : List (String × String × List (ℚ × ℚ)) :=
  PROGRAMS.flatMap (fun p => FUNCTIONS.map (fun f =>
    (p, f, (filterPF df p f).map (fun r => (r.workers, plot2Y r)))))

/-- The metric list of the comparison plot (plot 5). -/
def METRICS : List String :=
  ["CPU%", "Memory(KB)", "Time(s)", "IO(KB/s)"]

/-- Plot 5 y-value: `data[metric] / 1024` when the metric is
`Memory(KB)`, the raw column otherwise. -/
def comparisonY (metric : String) (r : Row) : ℚ :=
  if metric = "Memory(KB)" then column metric r / 1024 else column metric r

/-- Plot 5 (comparison): per metric and function, one Processes series
(program `a`, all rows) and one Threads series (program `b`, rows with
`Workers ∈ {2,3,4,5}`), both in row order. -/
def comparisonSeries (df : List Row) :
    List (String × String × List (ℚ × ℚ)) :=
  METRICS.flatMap (fun m => FUNCTIONS.flatMap (fun f =>
    let dataA := df.filter (fun r => r.program == "a" && r.function == f)
    let dataB := df.filter (fun r => r.program == "b" && r.function == f &&
      (r.workers == 2 || r.workers == 3 || r.workers == 4 || r.workers == 5))
    [(m, f ++ " (Processes)", dataA.map (fun r => (r.workers, comparisonY m r))),
     (m, f ++ " (Threads)", dataB.map (fun r => (r.workers, comparisonY m r)))]))

/-- `workersLE a b` is the key comparison of `sort_values('Workers')`. -/
def workersLE (a b : Row) : Prop := a.workers ≤ b.workers

instance : DecidableRel workersLE :=
  fun a b => inferInstanceAs (Decidable (a.workers ≤ b.workers))

/-- `data.sort_values('Workers')`: a stable sort on the Workers column. -/
def sortByWorkers (l : List Row) : List Row := List.insertionSort workersLE l

/-- Plot 6 (scalability): sorts the group by Workers; when the group is
non-empty, takes `baseline_time = data.iloc[0]['Time(s)']` and plots
`(Workers, baseline_time / Time(s))`; an empty group is silently
skipped (`if len(data) > 0`), which the model records as `none`. -/
def scalabilityPoints (df : List Row) (p f : String) :
    Option (List (ℚ × ℚ)) :=
  match sortByWorkers (filterPF df p f) with
  | [] => none
  | r0 :: rs =>
      some ((r0 :: rs).map (fun r => (r.workers, r0.timeSeconds / r.timeSeconds)))

/-- The y-values (speedups) of one scalability series. -/
def speedupSeq (df : List Row) (p f : String) : Option (List ℚ) :=
  (scalabilityPoints df p f).map (fun l => l.map Prod.snd)

/-- All scalability series, in the loop order of plot 6. -/
def scalabilitySeries (df : List Row) :
    List (String × String × Option (List (ℚ × ℚ))) :=
  FUNCTIONS.flatMap (fun f => PROGRAMS.map (fun p =>
    (p, f, scalabilityPoints df p f)))

/-- Every point sequence `create_plots` hands to matplotlib, chart by
chart, as a function of the loaded table. -/
def chartGeometry (df : List Row) :
    List (String × String × List (ℚ × ℚ)) ×
    List (String × String × List (ℚ × ℚ)) ×
    List (String × String × List (ℚ × ℚ)) ×
    List (String × String × List (ℚ × ℚ)) ×
    List (String × String × List (ℚ × ℚ)) ×
    List (String × String × Option (List (ℚ × ℚ))) :=
  (lineSeries df "CPU%", memSeries df, lineSeries df "Time(s)",
   lineSeries df "IO(KB/s)", comparisonSeries df, scalabilitySeries df)

/-- The required-column list validated by `load_data`. -/
def REQUIRED_COLUMNS : List String :=
  ["Program", "Function", "Workers", "CPU%", "Memory(KB)", "IO(KB/s)", "Time(s)"]

/-- A parsed CSV file: its header columns, and its rows (meaningful once
the schema check passed). -/
structure CSVFile where
  columns : List String
  rows : List Row
deriving DecidableEq

/-- Result of `load_data`: either the dataframe, or a `sys.exit` with a
code after printing diagnostics. -/
inductive LoadResult where
  | ok (df : CSVFile)
  | exited (code : Nat) (diagnostics : List String)
deriving DecidableEq

/-- `load_data`: `FileNotFoundError` (the file system gives no content)
prints two messages and exits 1; missing required columns print a
diagnostic and exit 1; otherwise the dataframe is returned. -/
def load_data (fs : Option CSVFile) : LoadResult :=
  match fs with
  | none =>
      LoadResult.exited 1
        ["[ERROR] File not found: " ++ CSV_FILE,
         "[ERROR] Please run Part D measurement script first."]
  | some df =>
      let missing := REQUIRED_COLUMNS.filter (fun c => !(df.columns.contains c))
      if missing.isEmpty then LoadResult.ok df
      else
        LoadResult.exited 1
          ["[ERROR] Missing required columns: " ++ String.intercalate ", " missing]

/-- Observable outcome of one run of `main`. -/
structure RunOutcome where
  exitCode : Nat
  diagnostics : List String
  outputFiles : List String
  figuresRendered : Nat
deriving DecidableEq

/-- `main`: loads the data; on a load failure the `sys.exit(1)` fires
before `create_plots` and `save_plots`, so nothing is rendered and no
output file is written; on success six figures are rendered and saved
to `OUTPUT_PDF`. -/
def main (fs : Option CSVFile) : RunOutcome :=
  match load_data fs with
  | LoadResult.exited code ds =>
      { exitCode := code, diagnostics := ds, outputFiles := [],
        figuresRendered := 0 }
  | LoadResult.ok _ =>
      { exitCode := 0, diagnostics := [], outputFiles := [OUTPUT_PDF],
        figuresRendered := 6 }

/-- First row of the spec's end-to-end scenario:
`(workers=2, cpu=50.0, time=10.0)`. -/
def exRow1 : Row :=
  { program := "a", function := "cpu", workers := 2, cpuPercent := 50,
    memoryKB := 0, ioKBps := 0, timeSeconds := 10 }

/-- Second row of the spec's end-to-end scenario:
`(workers=4, cpu=70.0, time=6.0)`. -/
def exRow2 : Row :=
  { program := "a", function := "cpu", workers := 4, cpuPercent := 70,
    memoryKB := 0, ioKBps := 0, timeSeconds := 6 }

/-- The two-row table of the spec's end-to-end scenario, one series
(program `a`, function `cpu`). -/
def exampleTable : List Row := [exRow1, exRow2]

/-- A valid table whose rows come in descending Workers order. -/
def unsortedTable : List Row :=
  [{ program := "a", function := "cpu", workers := 4, cpuPercent := 70,
     memoryKB := 0, ioKBps := 0, timeSeconds := 6 },
   { program := "a", function := "cpu", workers := 2, cpuPercent := 50,
     memoryKB := 0, ioKBps := 0, timeSeconds := 10 }]

/-- A one-row table whose baseline `Time(s)` is zero. -/
def zeroBaselineTable : List Row :=
  [{ program := "a", function := "cpu", workers := 2, cpuPercent := 50,
     memoryKB := 0, ioKBps := 0, timeSeconds := 0 }]

/-- A point list is in ascending order of its independent variable. -/
def ascendingX (pts : List (ℚ × ℚ)) : Prop :=
  List.Pairwise (fun a b => a.1 ≤ b.1) pts

instance (pts : List (ℚ × ℚ)) : Decidable (ascendingX pts) :=
  inferInstanceAs (Decidable (List.Pairwise _ pts))

end PA01

namespace PA02

/-- `MSG_SIZES` of the PA02 script. -/
def MSG_SIZES : List ℕ := [1024, 4096, 65536, 1048576]

/-- Hardcoded throughput of the two-copy implementation (Gbps). -/
def throughput_two_copy : List ℚ := [9.3742, 14.4076, 38.9824, 44.0402]

/-- Hardcoded throughput of the one-copy implementation (Gbps). -/
def throughput_one_copy : List ℚ := [7.0840, 13.6835, 42.9614, 48.4065]

/-- Hardcoded throughput of the zero-copy implementation (Gbps). -/
def throughput_zero_copy : List ℚ := [4.6127, 10.2657, 30.1563, 35.3253]

/-- Hardcoded L1 cache misses, two-copy. -/
def l1_misses_two_copy : List ℚ := [3963320820, 3375278746, 2943379236, 3123572797]

/-- Hardcoded L1 cache misses, one-copy. -/
def l1_misses_one_copy : List ℚ := [3237920369, 3187780795, 3218773154, 3461652149]

/-- Hardcoded L1 cache misses, zero-copy. -/
def l1_misses_zero_copy : List ℚ := [2993598361, 3140791657, 3077558012, 3131315716]

/-- Hardcoded context switches, two-copy. -/
def ctx_sw_two_copy : List ℚ := [1895182, 2509493, 774042, 853238]

/-- Hardcoded context switches, one-copy. -/
def ctx_sw_one_copy : List ℚ := [1627504, 3328111, 889593, 931450]

/-- Hardcoded context switches, zero-copy. -/
def ctx_sw_zero_copy : List ℚ := [3209825, 3075449, 1678570, 714696]

/-- The fixed bar width `width = 0.25` of the grouped bar charts. -/
def width : ℚ := 0.25

/-- One rendered bar: its centre on the x axis and its height. -/
structure Bar where
  center : ℚ
  height : ℚ
deriving DecidableEq

/-- One `ax.bar(x + offset, data, width)` call:
`x = np.arange(len(MSG_SIZES))`, so one bar per category, centred at
`i + offset`. -/
def barsOf (offset : ℚ) (data : List ℚ) : List Bar :=
  (List.zip ((List.range MSG_SIZES.length).map (fun i => (i : ℚ) + offset)) data).map
    (fun e => { center := e.1, height := e.2 })

/-- All bars of the throughput chart: the three `ax.bar` calls at
offsets `-width`, `0`, `+width`. -/
def throughputBars : List Bar :=
  barsOf (-width) throughput_two_copy ++ barsOf 0 throughput_one_copy ++
    barsOf width throughput_zero_copy

/-- All bars of the L1-cache-miss panel of plot 3. -/
def l1Bars : List Bar :=
  barsOf (-width) l1_misses_two_copy ++ barsOf 0 l1_misses_one_copy ++
    barsOf width l1_misses_zero_copy

/-- All bars of the context-switch panel of plot 3. -/
def ctxBars : List Bar :=
  barsOf (-width) ctx_sw_two_copy ++ barsOf 0 ctx_sw_one_copy ++
    barsOf width ctx_sw_zero_copy

/-- Two bars overlap when the interiors of their horizontal intervals
`(center - width/2, center + width/2)` intersect. -/
def barOverlap (b1 b2 : Bar) : Prop :=
  max (b1.center - width / 2) (b2.center - width / 2) <
    min (b1.center + width / 2) (b2.center + width / 2)

instance (b1 b2 : Bar) : Decidable (barOverlap b1 b2) :=
  inferInstanceAs (Decidable (_ < _))

end PA02

/-- A CSV header with every required column except `Time(s)`. -/
def noTimeFile : PA01.CSVFile :=
  { columns := ["Program", "Function", "Workers", "CPU%", "Memory(KB)", "IO(KB/s)"],
    rows := [] }

instance : IsTotal PA01.Row PA01.workersLE :=
  ⟨fun a b => le_total a.workers b.workers⟩

instance : IsTrans PA01.Row PA01.workersLE :=
  ⟨fun _ _ _ h1 h2 => le_trans h1 h2⟩

/-- C1: in the scalability plot, for every non-empty (program, function)
group whose baseline `Time(s)` (the first sample after sorting by
Workers ascending) is nonzero, the speedup at the baseline sample is
exactly 1. -/
theorem speedup_baseline_is_one (df : List PA01.Row) (p f : String)
    (r0 : PA01.Row) (rs : List PA01.Row)
    (hsort : PA01.sortByWorkers (PA01.filterPF df p f) = r0 :: rs)
    (hbase : r0.timeSeconds ≠ 0) :
    PA01.scalabilityPoints df p f =
      some ((r0.workers, 1) ::
        rs.map (fun r => (r.workers, r0.timeSeconds / r.timeSeconds))) := by
  unfold PA01.scalabilityPoints
  rw [hsort]
  simp [div_self hbase]

/-- Witness for C1 on the two-row example table. -/
theorem speedup_baseline_is_one_witness :
    PA01.scalabilityPoints PA01.exampleTable "a" "cpu" =
      some ((PA01.exRow1.workers, 1) ::
        [PA01.exRow2].map
          (fun r => (r.workers, PA01.exRow1.timeSeconds / r.timeSeconds))) :=
  speedup_baseline_is_one PA01.exampleTable "a" "cpu" PA01.exRow1 [PA01.exRow2]
    (by decide) (by decide)

/-- C5: with a missing input file, `main` exits with code 1 after the
file-not-found diagnostics, renders nothing and writes no output
artifact. -/
theorem missing_file_exits_nonzero :
    PA01.main none =
      { exitCode := 1,
        diagnostics :=
          ["[ERROR] File not found: MT25077_Part_D_CSV.csv",
           "[ERROR] Please run Part D measurement script first."],
        outputFiles := [],
        figuresRendered := 0 } := by
  decide

/-- C9: the chart geometry is a function of the input table alone (two
runs on equal tables agree), and the series identities of each line
chart come in the fixed order of the hardcoded program and function
lists, independent of the data. -/
theorem pipeline_deterministic (d1 d2 : List PA01.Row) (h : d1 = d2) :
    PA01.chartGeometry d1 = PA01.chartGeometry d2 ∧
    (PA01.lineSeries d1 "CPU%").map (fun s => (s.1, s.2.1)) =
      [("a", "cpu"), ("a", "mem"), ("a", "io"),
       ("b", "cpu"), ("b", "mem"), ("b", "io")] := by
  subst h
  exact ⟨rfl, rfl⟩

/-- Witness for C9 at the empty table. -/
theorem pipeline_deterministic_witness :
    PA01.chartGeometry [] = PA01.chartGeometry [] ∧
    (PA01.lineSeries [] "CPU%").map (fun s => (s.1, s.2.1)) =
      [("a", "cpu"), ("a", "mem"), ("a", "io"),
       ("b", "cpu"), ("b", "mem"), ("b", "io")] :=
  pipeline_deterministic [] [] rfl

/-- C10: every y-value of the memory chart and of the memory panel of
the comparison chart is the stored `Memory(KB)` divided by 1024, so
multiplying the plotted value by 1024 recovers the stored one; the
other three metrics are plotted unconverted. -/
theorem memory_plotted_in_mb (r : PA01.Row) :
    PA01.plot2Y r * 1024 = r.memoryKB ∧
    PA01.comparisonY "Memory(KB)" r * 1024 = r.memoryKB ∧
    PA01.comparisonY "CPU%" r = r.cpuPercent ∧
    PA01.comparisonY "Time(s)" r = r.timeSeconds ∧
    PA01.comparisonY "IO(KB/s)" r = r.ioKBps ∧
    PA01.column "CPU%" r = r.cpuPercent ∧
    PA01.column "Time(s)" r = r.timeSeconds ∧
    PA01.column "IO(KB/s)" r = r.ioKBps := by
  simp [PA01.plot2Y, PA01.comparisonY, PA01.column, div_mul_cancel₀]

/-- Helper: a dict subscript on a key held by no entry raises KeyError. -/
theorem dictGet_not_mem (d : List (String × String)) (k : String)
    (h : ∀ p ∈ d, p.1 ≠ k) :
    PA01.dictGet d k = Except.error (PA01.StyleLookupError.keyError k) := by
  have hf : d.find? (fun e => e.1 == k) = none :=
    List.find?_eq_none.mpr (fun x hx => by simpa using h x hx)
  unfold PA01.dictGet
  rw [hf]

/-- C7: a series identity that is no key of the fixed style tables makes
the dict subscript fail with a KeyError (the spec's StyleLookupError)
instead of defaulting, while every key of the tables yields its fixed
style. -/
theorem style_lookup_total_or_fails (k : String) :
    (k ∉ PA01.COLORS.map Prod.fst →
      PA01.dictGet PA01.COLORS k =
        Except.error (PA01.StyleLookupError.keyError k)) ∧
    (k ∉ PA01.MARKERS.map Prod.fst →
      PA01.dictGet PA01.MARKERS k =
        Except.error (PA01.StyleLookupError.keyError k)) ∧
    (k ∉ PA01.LINE_STYLES.map Prod.fst →
      PA01.dictGet PA01.LINE_STYLES k =
        Except.error (PA01.StyleLookupError.keyError k)) ∧
    PA01.dictGet PA01.COLORS "cpu" = Except.ok "#FF6B6B" ∧
    PA01.dictGet PA01.COLORS "mem" = Except.ok "#4ECDC4" ∧
    PA01.dictGet PA01.COLORS "io" = Except.ok "#45B7D1" ∧
    PA01.dictGet PA01.MARKERS "a" = Except.ok "o" ∧
    PA01.dictGet PA01.MARKERS "b" = Except.ok "s" ∧
    PA01.dictGet PA01.LINE_STYLES "a" = Except.ok "-" ∧
    PA01.dictGet PA01.LINE_STYLES "b" = Except.ok "--" := by
  refine ⟨?_, ?_, ?_, rfl, rfl, rfl, rfl, rfl, rfl, rfl⟩ <;>
    · intro hk
      refine dictGet_not_mem _ _ (fun p hp hpk => hk ?_)
      exact hpk ▸ List.mem_map_of_mem Prod.fst hp

/-- Witness for C7: an unknown key and a known key of COLORS. -/
theorem style_lookup_total_or_fails_witness :
    PA01.dictGet PA01.COLORS "zzz" =
      Except.error (PA01.StyleLookupError.keyError "zzz") :=
  (style_lookup_total_or_fails "zzz").1 (by decide)

/-- C2 counterexample: on a valid table whose rows arrive in descending
Workers order, the CPU chart hands the (a, cpu) series to the renderer
with its points out of ascending Workers order. -/
theorem series_sorted_counterexample :
    ("a", "cpu", [((4 : ℚ), (70 : ℚ)), ((2 : ℚ), (50 : ℚ))]) ∈
        PA01.lineSeries PA01.unsortedTable "CPU%" ∧
    ¬ PA01.ascendingX [((4 : ℚ), (70 : ℚ)), ((2 : ℚ), (50 : ℚ))] :=
  ⟨by decide, by decide⟩

/-- C2 (amended): only the scalability chart sorts: every series it
produces is in ascending Workers order; the other charts emit points in
input row order. -/
theorem scalability_series_sorted (df : List PA01.Row) (p f : String)
    (pts : List (ℚ × ℚ)) (h : PA01.scalabilityPoints df p f = some pts) :
    PA01.ascendingX pts := by
  have hsorted : List.Sorted PA01.workersLE
      (PA01.sortByWorkers (PA01.filterPF df p f)) :=
    List.sorted_insertionSort PA01.workersLE (PA01.filterPF df p f)
  unfold PA01.scalabilityPoints at h
  cases hs : PA01.sortByWorkers (PA01.filterPF df p f) with
  | nil => rw [hs] at h; cases h
  | cons r0 rs =>
      rw [hs] at h
      injection h with h
      subst h
      rw [hs] at hsorted
      unfold PA01.ascendingX
      rw [List.pairwise_map]
      exact hsorted.imp (fun hab => hab)

/-- Witness for C2's amended theorem on the example table. -/
theorem scalability_series_sorted_witness :
    PA01.ascendingX [((2 : ℚ), (1 : ℚ)), ((4 : ℚ), (10 : ℚ) / 6)] :=
  scalability_series_sorted PA01.exampleTable "a" "cpu" _ (by
    norm_num [PA01.scalabilityPoints, PA01.sortByWorkers, PA01.filterPF,
      PA01.exampleTable, PA01.exRow1, PA01.exRow2, PA01.workersLE])

/-- C3 counterexample: with a zero baseline the speedup computation
still produces a numeric series (no error is raised), and an empty
group is silently skipped rather than reported. -/
theorem speedup_guard_counterexample :
    (PA01.scalabilityPoints PA01.zeroBaselineTable "a" "cpu").isSome = true ∧
    PA01.scalabilityPoints ([] : List PA01.Row) "a" "cpu" = none :=
  ⟨rfl, rfl⟩

/-- C3 (amended): the scalability loop skips an empty group silently
(`if len(data) > 0`) and derives a numeric speedup series for every
non-empty group, with no guard on a zero baseline. -/
theorem speedup_no_guard (df : List PA01.Row) (p f : String) :
    (PA01.filterPF df p f = [] → PA01.scalabilityPoints df p f = none) ∧
    (PA01.filterPF df p f ≠ [] →
      (PA01.scalabilityPoints df p f).isSome = true) := by
  constructor
  · intro h
    unfold PA01.scalabilityPoints
    rw [h]
    rfl
  · intro h
    have hperm := List.perm_insertionSort PA01.workersLE (PA01.filterPF df p f)
    unfold PA01.scalabilityPoints
    cases hs : PA01.sortByWorkers (PA01.filterPF df p f) with
    | nil =>
        exfalso
        unfold PA01.sortByWorkers at hs
        rw [hs] at hperm
        exact h hperm.symm.eq_nil
    | cons r0 rs => rfl

/-- Witness for C3's amended theorem: a one-row group with zero
baseline still yields a numeric series. -/
theorem speedup_no_guard_witness :
    (PA01.scalabilityPoints PA01.zeroBaselineTable "a" "cpu").isSome = true :=
  (speedup_no_guard PA01.zeroBaselineTable "a" "cpu").2 (by decide)

/-- C8 counterexample: on the scenario table the computed speedup
sequence is [1, 10/6], which is not exactly [1, 1.667]. -/
theorem scenario_speedup_counterexample :
    PA01.speedupSeq PA01.exampleTable "a" "cpu" ≠ some [1, 1.667] := by
  norm_num [PA01.speedupSeq, PA01.scalabilityPoints, PA01.sortByWorkers,
    PA01.filterPF, PA01.exampleTable, PA01.exRow1, PA01.exRow2, PA01.workersLE]

/-- C8 (amended): the scenario table yields exactly the speedups
[1, 10/6]; the spec's 1.667 is that value rounded to three decimals
(within half a unit in the last place). -/
theorem scenario_speedup_exact :
    PA01.speedupSeq PA01.exampleTable "a" "cpu" = some [1, 10 / 6] ∧
    |(1.667 : ℚ) - 10 / 6| ≤ 1 / 2000 := by
  constructor
  · norm_num [PA01.speedupSeq, PA01.scalabilityPoints, PA01.sortByWorkers,
      PA01.filterPF, PA01.exampleTable, PA01.exRow1, PA01.exRow2,
      PA01.workersLE]
  · rw [abs_le]
    norm_num

set_option maxHeartbeats 2000000 in
/-- C6: each grouped bar chart draws exactly 3 × 4 bars (three series,
four message-size categories), and no two bars overlap: with width 0.25
and offsets -0.25, 0, +0.25 around integer category positions the open
horizontal intervals of the bars are pairwise disjoint (adjacent bars of
one cluster share only an edge). -/
theorem grouped_bars_disjoint :
    PA02.throughputBars.length = 3 * PA02.MSG_SIZES.length ∧
    PA02.l1Bars.length = 3 * PA02.MSG_SIZES.length ∧
    PA02.ctxBars.length = 3 * PA02.MSG_SIZES.length ∧
    List.Pairwise (fun b1 b2 => ¬ PA02.barOverlap b1 b2) PA02.throughputBars ∧
    List.Pairwise (fun b1 b2 => ¬ PA02.barOverlap b1 b2) PA02.l1Bars ∧
    List.Pairwise (fun b1 b2 => ¬ PA02.barOverlap b1 b2) PA02.ctxBars := by
  refine ⟨?_, ?_, ?_, ?_, ?_, ?_⟩ <;>
    norm_num [PA02.throughputBars, PA02.l1Bars, PA02.ctxBars, PA02.barsOf,
      PA02.throughput_two_copy, PA02.throughput_one_copy,
      PA02.throughput_zero_copy, PA02.l1_misses_two_copy,
      PA02.l1_misses_one_copy, PA02.l1_misses_zero_copy,
      PA02.ctx_sw_two_copy, PA02.ctx_sw_one_copy, PA02.ctx_sw_zero_copy,
      PA02.MSG_SIZES, List.range_succ, List.pairwise_append,
      List.pairwise_cons, PA02.barOverlap, PA02.width]

/-- C4: a table missing any required column (the execution-time column
included) makes `load_data` print a diagnostic and exit 1, so the run
renders no figure and writes no output file. -/
theorem missing_column_halts (file : PA01.CSVFile) (c : String)
    (hreq : c ∈ PA01.REQUIRED_COLUMNS) (hmiss : c ∉ file.columns) :
    (PA01.main (some file)).exitCode = 1 ∧
    (PA01.main (some file)).diagnostics ≠ [] ∧
    (PA01.main (some file)).outputFiles = [] ∧
    (PA01.main (some file)).figuresRendered = 0 := by
  have hc : c ∈ PA01.REQUIRED_COLUMNS.filter
      (fun c => !(file.columns.contains c)) :=
    List.mem_filter.mpr ⟨hreq, by simpa using hmiss⟩
  have hne : (PA01.REQUIRED_COLUMNS.filter
      (fun c => !(file.columns.contains c))).isEmpty = false := by
    cases hE : (PA01.REQUIRED_COLUMNS.filter
        (fun c => !(file.columns.contains c))).isEmpty
    · rfl
    · rw [List.isEmpty_iff] at hE
      rw [hE] at hc
      exact absurd hc (List.not_mem_nil c)
  have hsplit : PA01.load_data (some file) =
      if (PA01.REQUIRED_COLUMNS.filter
          (fun c => !(file.columns.contains c))).isEmpty then
        PA01.LoadResult.ok file
      else
        PA01.LoadResult.exited 1
          ["[ERROR] Missing required columns: " ++ String.intercalate ", "
            (PA01.REQUIRED_COLUMNS.filter
              (fun c => !(file.columns.contains c)))] := rfl
  have hload : PA01.load_data (some file) =
      PA01.LoadResult.exited 1
        ["[ERROR] Missing required columns: " ++ String.intercalate ", "
          (PA01.REQUIRED_COLUMNS.filter
            (fun c => !(file.columns.contains c)))] := by
    rw [hsplit, hne]
    simp
  refine ⟨?_, ?_, ?_, ?_⟩ <;>
    · unfold PA01.main
      rw [hload]
      try simp

/-- Witness for C4: a header that lacks `Time(s)`. -/
theorem missing_column_halts_witness :
    (PA01.main (some noTimeFile)).exitCode = 1 ∧
    (PA01.main (some noTimeFile)).diagnostics ≠ [] ∧
    (PA01.main (some noTimeFile)).outputFiles = [] ∧
    (PA01.main (some noTimeFile)).figuresRendered = 0 :=
  missing_column_halts noTimeFile "Time(s)" (by decide) (by decide)
